import Mathlib

/-!
Verification development for the hapi-core indexer: a shallow embedding of
the indexer client dispatch (`indexer/src/indexer/client/indexer_client.rs`),
the EVM test-mock encodings (`indexer/tests/mocks/evm_mock.rs`), and
spec-modelled definitions for the fetch/decode adapters and driving loop,
together with theorems settling the specification claims.
-/

namespace HapiIndexer

/-- Outcome of a fallible Rust call in the embedding: a returned `Ok` value,
a returned `Err` (the `anyhow::Result` error path), or a panic
(`unimplemented!`, `panic!` and friends abort the call instead of returning). -/
inductive Outcome (α : Type) where
  | ok (val : α)
  | err (msg : String)
  | panic (msg : String)
deriving DecidableEq, Repr

/-- True exactly when the outcome is a returned `Ok` value. -/
def Outcome.isOk {α : Type} : Outcome α → Bool
  | .ok _ => true
  | _ => false

/-- True exactly when the outcome is a returned `Err` value. -/
def Outcome.isErr {α : Type} : Outcome α → Bool
  | .err _ => true
  | _ => false

/-- True exactly when the call aborted with a panic. -/
def Outcome.isPanic {α : Type} : Outcome α → Bool
  | .panic _ => true
  | _ => false

/-- Map over the `ok` value of an outcome. -/
def Outcome.map {α β : Type} (f : α → β) : Outcome α → Outcome β
  | .ok v => .ok (f v)
  | .err m => .err m
  | .panic m => .panic m

/-- Network kinds, `HapiCoreNetwork` in the client crate
(the six kinds matched in `IndexerClient::new`). -/
inductive HapiCoreNetwork where
  | Ethereum
  | Bsc
  | Sepolia
  | Near
  | Solana
  | Bitcoin
deriving DecidableEq, Repr

/-- `HapiCoreOptions`, the configuration handed to each chain client
constructor by `IndexerClient::new`. -/
structure HapiCoreOptions where
  provider_url : String
  contract_address : String
  private_key : Option String
  chain_id : Option Nat
  account_id : Option String
  network : HapiCoreNetwork
deriving DecidableEq, Repr

/-- The EVM chain client (`HapiCoreEvm`); its connection internals are
outside the embedded sources, so it is represented by its options. -/
structure HapiCoreEvm where
  options : HapiCoreOptions
deriving DecidableEq, Repr

/-- The Solana chain client (`HapiCoreSolana`); represented by its options. -/
structure HapiCoreSolana where
  options : HapiCoreOptions
deriving DecidableEq, Repr

/-- `IndexingCursor`: the per-network resume position (`None`, a block
height, or a transaction reference). Transaction references are identified
by their chain position (larger = more recent), which realizes the
network's own ordering on references. -/
inductive IndexingCursor where
  | None
  | Block (height : Nat)
  | Transaction (ref : Nat)
deriving DecidableEq, Repr

/-- The 17 protocol event names (`EventName` in the client crate), as
enumerated by the mock's per-event log construction. -/
inductive EventName where
  | Initialize
  | SetAuthority
  | UpdateStakeConfiguration
  | UpdateRewardConfiguration
  | CreateReporter
  | UpdateReporter
  | ActivateReporter
  | DeactivateReporter
  | Unstake
  | CreateCase
  | UpdateCase
  | CreateAddress
  | UpdateAddress
  | ConfirmAddress
  | CreateAsset
  | UpdateAsset
  | ConfirmAsset
deriving DecidableEq, Repr

/-- An EVM log entry as the mock constructs it: an event-signature topic
followed by indexed topics (each a 256-bit word), ABI-encoded body words,
the block number and the transaction hash. -/
structure EvmLog where
  topics : List Nat
  data : List Nat
  block : Nat
  tx_hash : String
deriving DecidableEq, Repr

/-- `IndexerJob`: a decoded log entry for EVM-style chains, or a
transaction reference for Solana-style chains. -/
inductive IndexerJob where
  | Log (log : EvmLog)
  | Transaction (hash : Nat)
deriving DecidableEq, Repr

/-- Normalized reporter record (the fields the mock encodes:
id, account address, role). -/
structure ReporterData where
  id : Nat
  account : Nat
  role : Nat
deriving DecidableEq, Repr

/-- Normalized case record. -/
structure CaseData where
  id : Nat
  status : Nat
deriving DecidableEq, Repr

/-- Normalized address record (fields per the mock's `eth_call` response:
address, case id, reporter id, risk, category, confirmations). -/
structure AddressData where
  address : Nat
  case_id : Nat
  reporter_id : Nat
  risk : Nat
  category : Nat
  confirmations : Nat
deriving DecidableEq, Repr

/-- Normalized asset record. -/
structure AssetData where
  address : Nat
  asset_id : Nat
  risk : Nat
  category : Nat
deriving DecidableEq, Repr

/-- `PushData`: the tagged variant of normalized records. -/
inductive PushData where
  | Reporter (data : ReporterData)
  | Case (data : CaseData)
  | Address (data : AddressData)
  | Asset (data : AssetData)
deriving DecidableEq, Repr

/-- `PushPayload`: one normalized event plus provenance, handed to the
delivery collaborator. -/
structure PushPayload where
  event_name : EventName
  data : PushData
  network : HapiCoreNetwork
  tx_hash : String
  block : Nat
  timestamp : Nat
deriving DecidableEq, Repr

/-- `IndexerClient`: one concrete variant per supported ledger kind. -/
inductive IndexerClient where
  | Evm (client : HapiCoreEvm)
  | Near
  | Solana (client : HapiCoreSolana)
deriving DecidableEq, Repr

/-- `IndexerClient::new`: builds the options record and selects the client
variant by network kind. The chain-client constructors (`HapiCoreEvm::new`,
`HapiCoreSolana::new`) live outside the embedded sources and are passed in;
`?` propagation is `Except.map` into the selected variant. -/
def IndexerClient.new
    (evmNew : HapiCoreOptions → Except String HapiCoreEvm)
    (solanaNew : HapiCoreOptions → Except String HapiCoreSolana)
    (network : HapiCoreNetwork)
    (rpc_node_url : String) (contract_address : String) :
    Except String IndexerClient :=
  let options : HapiCoreOptions :=
    { provider_url := rpc_node_url
      contract_address := contract_address
      private_key := Option.none
      chain_id := Option.none
      account_id := Option.none
      network := network }
  match network with
  | .Ethereum | .Bsc | .Sepolia => (evmNew options).map IndexerClient.Evm
  | .Near => .ok IndexerClient.Near
  | .Solana | .Bitcoin => (solanaNew options).map IndexerClient.Solana

/-- `IndexerClient::fetch_jobs`: dispatch on the client variant. The EVM and
Solana fetch implementations are passed in; the remaining variant (`Near`)
falls to the wildcard arm, `unimplemented!()`, which panics with
"not implemented". -/
def IndexerClient.fetch_jobs
    (fetchEvm : HapiCoreEvm → IndexingCursor → Outcome (List IndexerJob × IndexingCursor))
    (fetchSolana : HapiCoreSolana → IndexingCursor → Outcome (List IndexerJob × IndexingCursor))
    (self : IndexerClient) (cursor : IndexingCursor) :
    Outcome (List IndexerJob × IndexingCursor) :=
  match self with
  | .Evm client => fetchEvm client cursor
  | .Solana client => fetchSolana client cursor
  | _ => .panic "not implemented"

/-- `IndexerClient::handle_process`: dispatch on (client variant, job
variant). Only the matching pairs (Evm, Log) and (Solana, Transaction) run a
processor; every other pair falls to the wildcard arm, `unimplemented!()`,
which panics with "not implemented". -/
def IndexerClient.handle_process
    (processEvm : HapiCoreEvm → EvmLog → Outcome (Option (List PushPayload)))
    (processSolana : HapiCoreSolana → Nat → Outcome (Option (List PushPayload)))
    (self : IndexerClient) (job : IndexerJob) :
    Outcome (Option (List PushPayload)) :=
  match self, job with
  | .Evm client, .Log log => processEvm client log
  | .Solana client, .Transaction hash => processSolana client hash
  | _, _ => .panic "not implemented"

/-- Big-endian byte list of width `n` for the value `v` (the embedding of
Rust's `to_be_bytes`): most significant byte first, value taken mod `256 ^ n`. -/
def beBytes : Nat → Nat → List Nat
  | 0, _ => []
  | n + 1, v => beBytes n (v / 256) ++ [v % 256]

/-- Fold a big-endian byte list back into the value it encodes. -/
def fromBeBytes (bs : List Nat) : Nat :=
  bs.foldl (fun acc b => acc * 256 + b) 0

/-- Write `src` into `buf` starting at index `i`
(the embedding of Rust's `copy_from_slice` on `buf[i..]`). -/
def writeSlice (buf : List Nat) (i : Nat) (src : List Nat) : List Nat :=
  buf.take i ++ src ++ buf.drop (i + src.length)

/-- `u128_to_bytes` from the EVM mock: a 32-byte zero buffer whose
bytes 16..32 are overwritten with the big-endian bytes of the value. -/
def u128_to_bytes (value : Nat) : List Nat :=
  writeSlice (List.replicate 32 0) 16 (beBytes 16 value)

/-- A sample options record for concrete instantiations. -/
def testOptions (net : HapiCoreNetwork) : HapiCoreOptions :=
  { provider_url := "http://localhost"
    contract_address := "0x2947F98C42597966a0ec25e92843c09ac18Fbab7"
    private_key := Option.none
    chain_id := Option.none
    account_id := Option.none
    network := net }

/-- A sample EVM client for concrete instantiations. -/
def testEvmClient : HapiCoreEvm :=
  { options := testOptions HapiCoreNetwork.Ethereum }

/-- A sample Solana client for concrete instantiations. -/
def testSolanaClient : HapiCoreSolana :=
  { options := testOptions HapiCoreNetwork.Solana }

/-- The scenario reporter record (id 3, a sample account word, role 1). -/
def sampleReporterData : ReporterData :=
  { id := 3, account := 100, role := 1 }

/-- The scenario address record: risk 5, category 2, case id 7,
reporter id 3, with a sample address word and zero confirmations. -/
def sampleAddressData : AddressData :=
  { address := 1000, case_id := 7, reporter_id := 3, risk := 5, category := 2,
    confirmations := 0 }

/-- A sample asset record. -/
def sampleAssetData : AssetData :=
  { address := 1000, asset_id := 9, risk := 4, category := 3 }

theorem beBytes_length (n v : Nat) : (beBytes n v).length = n := by
  induction n generalizing v with
  | zero => rfl
  | succ n ih => simp [beBytes, ih]

theorem fromBeBytes_append_one (bs : List Nat) (b : Nat) :
    fromBeBytes (bs ++ [b]) = fromBeBytes bs * 256 + b := by
  simp [fromBeBytes]

theorem fromBeBytes_beBytes (n v : Nat) :
    fromBeBytes (beBytes n v) = v % 256 ^ n := by
  induction n generalizing v with
  | zero => simp [beBytes, fromBeBytes, Nat.mod_one]
  | succ n ih =>
    rw [beBytes, fromBeBytes_append_one, ih, pow_succ]
    have hdvd : (256 : Nat) ∣ 256 ^ n * 256 := ⟨256 ^ n, by ring⟩
    have h1 : v % (256 ^ n * 256) % 256 = v % 256 := Nat.mod_mod_of_dvd v hdvd
    have h2 : v % (256 ^ n * 256) / 256 = v / 256 % 256 ^ n := by
      rw [mul_comm]
      exact Nat.mod_mul_right_div_self v 256 (256 ^ n)
    have h3 : 256 * (v % (256 ^ n * 256) / 256) + v % (256 ^ n * 256) % 256
        = v % (256 ^ n * 256) := Nat.div_add_mod (v % (256 ^ n * 256)) 256
    omega

/-- The 256-bit topic word carrying a 128-bit record id: the mock packs the
id with `u128_to_bytes` and converts the 32 bytes into one word. -/
def u128Topic (v : Nat) : Nat :=
  fromBeBytes (u128_to_bytes v)

/-- All 17 protocol event names. -/
def allEventNames : List EventName :=
  [.Initialize, .SetAuthority, .UpdateStakeConfiguration, .UpdateRewardConfiguration,
   .CreateReporter, .UpdateReporter, .ActivateReporter, .DeactivateReporter, .Unstake,
   .CreateCase, .UpdateCase,
   .CreateAddress, .UpdateAddress, .ConfirmAddress,
   .CreateAsset, .UpdateAsset, .ConfirmAsset]

/-- Modelled from the spec: the event-signature topic selecting the event
kind (the keccak hash of the ABI signature in the source, here an
injective enumeration since hashing is outside the embedding). -/
def sigTopic : EventName → Nat
  | .Initialize => 1
  | .SetAuthority => 2
  | .UpdateStakeConfiguration => 3
  | .UpdateRewardConfiguration => 4
  | .CreateReporter => 5
  | .UpdateReporter => 6
  | .ActivateReporter => 7
  | .DeactivateReporter => 8
  | .Unstake => 9
  | .CreateCase => 10
  | .UpdateCase => 11
  | .CreateAddress => 12
  | .UpdateAddress => 13
  | .ConfirmAddress => 14
  | .CreateAsset => 15
  | .UpdateAsset => 16
  | .ConfirmAsset => 17

/-- Recover the event name selected by a signature topic. -/
def eventOfTopic (t : Nat) : Option EventName :=
  allEventNames.find? (fun e => sigTopic e == t)

/-- The reporter-family event kinds (one mock encoding arm). -/
def reporterFamily : EventName → Bool
  | .CreateReporter | .UpdateReporter | .ActivateReporter | .DeactivateReporter
  | .Unstake => true
  | _ => false

/-- The case-family event kinds: recognized but intentionally unmapped
(the mock arm is an empty TODO). -/
def caseFamily : EventName → Bool
  | .CreateCase | .UpdateCase => true
  | _ => false

/-- The address-family event kinds (one mock encoding arm). -/
def addressFamily : EventName → Bool
  | .CreateAddress | .UpdateAddress | .ConfirmAddress => true
  | _ => false

/-- The asset-family event kinds (one mock encoding arm). -/
def assetFamily : EventName → Bool
  | .CreateAsset | .UpdateAsset | .ConfirmAsset => true
  | _ => false

/-- Reporter-family log as the mock's `get_logs` builds it: topics are the
event signature and the id packed through `u128_to_bytes`; the ABI body
words are the reporter account address and the role. -/
def reporterLog (name : EventName) (d : ReporterData) (block : Nat) (hash : String) :
    EvmLog :=
  { topics := [sigTopic name, u128Topic d.id]
    data := [d.account, d.role]
    block := block
    tx_hash := hash }

/-- Case-family log as the mock's `get_logs` builds it: only the signature
topic, empty body (the encoding arm is an empty TODO). -/
def caseLog (name : EventName) (block : Nat) (hash : String) : EvmLog :=
  { topics := [sigTopic name]
    data := []
    block := block
    tx_hash := hash }

/-- Address-family log as the mock's `get_logs` builds it: topics are the
event signature and the address word; body words are risk and category. -/
def addressLog (name : EventName) (d : AddressData) (block : Nat) (hash : String) :
    EvmLog :=
  { topics := [sigTopic name, d.address]
    data := [d.risk, d.category]
    block := block
    tx_hash := hash }

/-- Asset-family log as the mock's `get_logs` builds it: topics are the
event signature and the address word; body words are asset id, risk and
category. -/
def assetLog (name : EventName) (d : AssetData) (block : Nat) (hash : String) :
    EvmLog :=
  { topics := [sigTopic name, d.address]
    data := [d.asset_id, d.risk, d.category]
    block := block
    tx_hash := hash }

/-- The `eth_call` response words the mock's `processing_data_mock` returns
for an address record: address, case id and reporter id packed through
`u128_to_bytes`, a zero confirmation count, risk and category. -/
def addressStateWords (d : AddressData) : List Nat :=
  [d.address, u128Topic d.case_id, u128Topic d.reporter_id, 0, d.risk, d.category]

/-- Modelled from the spec: `process_evm_job` (the EVM decode adapter, not
under the embedded sources). A fixed per-event-kind mapping from
(topics, body) — plus the secondary contract-state words for address
events — to exactly one `PushData` variant; case-family kinds are
recognized but unmapped and yield no payload; malformed shapes are a loud
error. `state` is the contract-read response and `timestamp` the block
timestamp from the secondary block lookup. -/
def process_evm_job (state : List Nat) (timestamp : Nat) (network : HapiCoreNetwork)
    (log : EvmLog) : Outcome (Option (List PushPayload)) :=
  match log.topics with
  | [] => .err "missing event signature topic"
  | t0 :: rest =>
    match eventOfTopic t0 with
    | Option.none => .err "unknown event signature"
    | Option.some name =>
      if reporterFamily name then
        match rest, log.data with
        | [idTopic], [account, role] =>
          if idTopic < 2 ^ 128 ∧ account < 2 ^ 160 ∧ role < 2 ^ 8 then
            .ok (Option.some
              [{ event_name := name
                 data := PushData.Reporter { id := idTopic, account := account, role := role }
                 network := network
                 tx_hash := log.tx_hash
                 block := log.block
                 timestamp := timestamp }])
          else .err "malformed reporter payload"
        | _, _ => .err "malformed reporter payload"
      else if addressFamily name then
        match rest, log.data, state with
        | [_], [_, _], [addr, case_id, reporter_id, confirmations, risk, category] =>
          if addr < 2 ^ 160 ∧ case_id < 2 ^ 128 ∧ reporter_id < 2 ^ 128 ∧
              risk < 2 ^ 8 ∧ category < 2 ^ 8 then
            .ok (Option.some
              [{ event_name := name
                 data := PushData.Address
                   { address := addr, case_id := case_id, reporter_id := reporter_id,
                     risk := risk, category := category, confirmations := confirmations }
                 network := network
                 tx_hash := log.tx_hash
                 block := log.block
                 timestamp := timestamp }])
          else .err "malformed address payload"
        | _, _, _ => .err "malformed address payload"
      else if assetFamily name then
        match rest, log.data with
        | [addrTopic], [asset_id, risk, category] =>
          if addrTopic < 2 ^ 160 ∧ risk < 2 ^ 8 ∧ category < 2 ^ 8 then
            .ok (Option.some
              [{ event_name := name
                 data := PushData.Asset
                   { address := addrTopic, asset_id := asset_id, risk := risk,
                     category := category }
                 network := network
                 tx_hash := log.tx_hash
                 block := log.block
                 timestamp := timestamp }])
          else .err "malformed asset payload"
        | _, _ => .err "malformed asset payload"
      else
        .ok Option.none

/-- The queried range's start block for an EVM fetch: genesis when the
cursor is `None`, the cursor's block otherwise; a transaction cursor is
not a valid EVM cursor (the mock panics on it). -/
def evmFromBlock : IndexingCursor → Option Nat
  | .None => Option.some 0
  | .Block b => Option.some b
  | .Transaction _ => Option.none

/-- Modelled from the spec: `fetch_evm_jobs` (not under the embedded
sources). Queries a bounded block range of `page_size` blocks from the
cursor's position (genesis when `None`), filtered by contract address —
`chain` is the contract's log stream; jobs are the logs in range and the
successor cursor is the end of the queried range, matching the ranges the
mock's `fetching_jobs_mock` prepares. -/
def fetch_evm_jobs (chain : List EvmLog) (page_size : Nat) (cursor : IndexingCursor) :
    Outcome (List IndexerJob × IndexingCursor) :=
  match evmFromBlock cursor with
  | Option.none => .panic "Evm network must have a block cursor"
  | Option.some from_block =>
    let to_block := from_block + page_size
    let logs := chain.filter (fun l => decide (from_block ≤ l.block) && decide (l.block ≤ to_block))
    .ok (logs.map IndexerJob.Log, IndexingCursor.Block to_block)

/-- Largest element of a list of transaction references (0 when empty). -/
def listMax (l : List Nat) : Nat :=
  l.foldl Nat.max 0

/-- Modelled from the spec: `fetch_solana_jobs` (not under the embedded
sources). Pages through the transaction references after the cursor's
reference (all of them when `None`); jobs are the new references and the
successor cursor is the most recent reference consumed, or exactly the old
cursor when there are no new references. -/
def fetch_solana_jobs (chain : List Nat) (cursor : IndexingCursor) :
    Outcome (List IndexerJob × IndexingCursor) :=
  match cursor with
  | .Block _ => .panic "Solana network must have a transaction cursor"
  | .None =>
    match chain with
    | [] => .ok ([], IndexingCursor.None)
    | refs => .ok (refs.map IndexerJob.Transaction, IndexingCursor.Transaction (listMax refs))
  | .Transaction r =>
    match chain.filter (fun x => decide (r < x)) with
    | [] => .ok ([], IndexingCursor.Transaction r)
    | refs => .ok (refs.map IndexerJob.Transaction, IndexingCursor.Transaction (listMax refs))

/-- The network's own ordering on cursors: `None` precedes everything;
block cursors compare by height, transaction cursors by chain position;
cursors of different shapes are unrelated. -/
def cursorLe : IndexingCursor → IndexingCursor → Bool
  | .None, _ => true
  | .Block a, .Block b => decide (a ≤ b)
  | .Transaction a, .Transaction b => decide (a ≤ b)
  | _, _ => false

/-- One committed cursor may follow another: it is not below it, and a
non-`None` cursor is never followed by `None`. -/
def cursorAdvance (a b : IndexingCursor) : Prop :=
  cursorLe a b = true ∧ (a ≠ IndexingCursor.None → b ≠ IndexingCursor.None)

/-- Modelled from the spec: the driving loop's committed cursors. Each
iteration fetches from the current cursor and commits the successor cursor
the fetch returned; a failed or panicking fetch commits nothing and the
trace ends (the loop aborts the iteration without committing). -/
def commitTrace (f : IndexingCursor → Outcome IndexingCursor) :
    IndexingCursor → Nat → List IndexingCursor
  | _, 0 => []
  | c, Nat.succ n =>
    match f c with
    | .ok c2 => c2 :: commitTrace f c2 n
    | _ => []

/-- The cursor an EVM fetch iteration would commit. -/
def evmCommitStep (chain : List EvmLog) (page_size : Nat) (c : IndexingCursor) :
    Outcome IndexingCursor :=
  (fetch_evm_jobs chain page_size c).map Prod.snd

/-- The cursor a Solana fetch iteration would commit. -/
def solanaCommitStep (chain : List Nat) (c : IndexingCursor) :
    Outcome IndexingCursor :=
  (fetch_solana_jobs chain c).map Prod.snd

/-- The default page size for EVM range queries. -/
def DEFAULT_PAGE_SIZE : Nat := 500

/-- Rust's `str::parse::<u64>` on the page-size override: an optional
leading plus sign, then one or more ASCII digits, value within the
unsigned 64-bit range; anything else fails. -/
def parse_u64 (s : String) : Option Nat :=
  let cs := s.toList
  let digits := match cs with
    | c :: rest => if c = '+' then rest else cs
    | [] => cs
  if digits.isEmpty then
    Option.none
  else if digits.all Char.isDigit then
    let v := digits.foldl (fun acc c => acc * 10 + (c.toNat - 48)) 0
    if v < 2 ^ 64 then Option.some v else Option.none
  else
    Option.none

/-- `PAGE_SIZE`: the effective page size from the `INDEXER_PAGE_SIZE`
environment value — `map_or(DEFAULT_PAGE_SIZE, parse().unwrap_or(DEFAULT_PAGE_SIZE))`. -/
def PAGE_SIZE (env_value : Option String) : Nat :=
  match env_value with
  | Option.none => DEFAULT_PAGE_SIZE
  | Option.some s => (parse_u64 s).getD DEFAULT_PAGE_SIZE

theorem u128_to_bytes_eq (v : Nat) :
    u128_to_bytes v = List.replicate 16 0 ++ beBytes 16 v := by
  have hlen : (beBytes 16 v).length = 16 := beBytes_length 16 v
  simp [u128_to_bytes, writeSlice, hlen, List.take_replicate, List.drop_replicate]

theorem fromBeBytes_replicate_zero_append (k : Nat) (bs : List Nat) :
    fromBeBytes (List.replicate k 0 ++ bs) = fromBeBytes bs := by
  induction k with
  | zero => rfl
  | succ k ih => simpa [fromBeBytes, List.replicate_succ] using ih

theorem u128Topic_eq (v : Nat) : u128Topic v = v % 2 ^ 128 := by
  have h : (256 : Nat) ^ 16 = 2 ^ 128 := by norm_num
  rw [u128Topic, u128_to_bytes_eq, fromBeBytes_replicate_zero_append,
    fromBeBytes_beBytes, h]

theorem u128Topic_eq_of_lt {v : Nat} (h : v < 2 ^ 128) : u128Topic v = v := by
  rw [u128Topic_eq]
  exact Nat.mod_eq_of_lt h

theorem eventOfTopic_sigTopic (e : EventName) : eventOfTopic (sigTopic e) = Option.some e := by
  cases e <;> rfl

theorem addressFamily_not_reporter {e : EventName} (h : addressFamily e = true) :
    reporterFamily e = false := by
  cases e <;> simp_all [addressFamily, reporterFamily]

theorem assetFamily_not_reporter {e : EventName} (h : assetFamily e = true) :
    reporterFamily e = false := by
  cases e <;> simp_all [assetFamily, reporterFamily]

theorem assetFamily_not_address {e : EventName} (h : assetFamily e = true) :
    addressFamily e = false := by
  cases e <;> simp_all [assetFamily, addressFamily]

theorem foldl_max_init_le (l : List Nat) : ∀ a : Nat, a ≤ l.foldl Nat.max a := by
  induction l with
  | nil => intro a; exact Nat.le_refl a
  | cons b t ih =>
    intro a
    exact Nat.le_trans (Nat.le_max_left a b) (ih (Nat.max a b))

theorem foldl_max_le_of_mem (l : List Nat) :
    ∀ (a x : Nat), x ∈ l → x ≤ l.foldl Nat.max a := by
  induction l with
  | nil => intro a x hx; cases hx
  | cons b t ih =>
    intro a x hx
    rcases List.mem_cons.mp hx with rfl | hx
    · exact Nat.le_trans (Nat.le_max_right a x) (foldl_max_init_le t (Nat.max a x))
    · exact ih (Nat.max a b) x hx

theorem le_listMax_of_mem {l : List Nat} {x : Nat} (h : x ∈ l) : x ≤ listMax l :=
  foldl_max_le_of_mem l 0 x h

theorem cursorLe_trans {a b c : IndexingCursor} (h1 : cursorLe a b = true)
    (h2 : cursorLe b c = true) : cursorLe a c = true := by
  cases a <;> cases b <;> cases c <;> simp_all [cursorLe] <;> omega

theorem cursorAdvance_trans {a b c : IndexingCursor} (h1 : cursorAdvance a b)
    (h2 : cursorAdvance b c) : cursorAdvance a c :=
  ⟨cursorLe_trans h1.1 h2.1, fun ha => h2.2 (h1.2 ha)⟩

theorem evmCommitStep_advance (chain : List EvmLog) (page_size : Nat)
    (c c2 : IndexingCursor) (h : evmCommitStep chain page_size c = .ok c2) :
    cursorAdvance c c2 := by
  cases c with
  | None =>
    simp only [evmCommitStep, fetch_evm_jobs, evmFromBlock, Outcome.map, Outcome.ok.injEq] at h
    subst h
    exact ⟨rfl, fun hc => by simp⟩
  | Block b =>
    simp only [evmCommitStep, fetch_evm_jobs, evmFromBlock, Outcome.map, Outcome.ok.injEq] at h
    subst h
    refine ⟨by simp [cursorLe], fun hc => by simp⟩
  | Transaction r =>
    simp [evmCommitStep, fetch_evm_jobs, evmFromBlock, Outcome.map] at h

theorem solanaCommitStep_advance (chain : List Nat)
    (c c2 : IndexingCursor) (h : solanaCommitStep chain c = .ok c2) :
    cursorAdvance c c2 := by
  cases c with
  | Block b =>
    simp [solanaCommitStep, fetch_solana_jobs, Outcome.map] at h
  | None =>
    cases hc : chain with
    | nil =>
      simp only [solanaCommitStep, fetch_solana_jobs, hc, Outcome.map, Outcome.ok.injEq] at h
      subst h
      exact ⟨rfl, fun hn => absurd rfl hn⟩
    | cons x xs =>
      simp only [solanaCommitStep, fetch_solana_jobs, hc, Outcome.map, Outcome.ok.injEq] at h
      subst h
      exact ⟨rfl, fun hn => by simp⟩
  | Transaction r =>
    cases hfil : chain.filter (fun x => decide (r < x)) with
    | nil =>
      simp only [solanaCommitStep, fetch_solana_jobs, hfil, Outcome.map, Outcome.ok.injEq] at h
      subst h
      exact ⟨by simp [cursorLe], fun hn => by simp⟩
    | cons x xs =>
      simp only [solanaCommitStep, fetch_solana_jobs, hfil, Outcome.map, Outcome.ok.injEq] at h
      subst h
      have hxmem : x ∈ chain.filter (fun y => decide (r < y)) := by
        rw [hfil]; exact List.mem_cons_self x xs
      have hrx : r < x := by
        have := (List.mem_filter.mp hxmem).2
        simpa using this
      have hxmax : x ≤ listMax (x :: xs) := le_listMax_of_mem (List.mem_cons_self x xs)
      refine ⟨by simp [cursorLe]; omega, fun hn => by simp⟩

theorem commitTrace_pairwise
    (f : IndexingCursor → Outcome IndexingCursor)
    (hstep : ∀ c c2, f c = .ok c2 → cursorAdvance c c2) :
    ∀ (n : Nat) (c0 : IndexingCursor),
      List.Pairwise cursorAdvance (c0 :: commitTrace f c0 n) := by
  intro n
  induction n with
  | zero =>
    intro c0
    simp [commitTrace]
  | succ n ih =>
    intro c0
    cases hf : f c0 with
    | ok c1 =>
      have hTail := ih c1
      have hstep0 : cursorAdvance c0 c1 := hstep c0 c1 hf
      simp only [commitTrace, hf]
      refine List.Pairwise.cons ?_ hTail
      intro b hb
      rcases List.mem_cons.mp hb with rfl | hb
      · exact hstep0
      · exact cursorAdvance_trans hstep0 (List.rel_of_pairwise_cons hTail hb)
    | err m =>
      simp [commitTrace, hf]
    | panic m =>
      simp [commitTrace, hf]

/-- C1 (counterexample): the concrete Near calls do not return an error
result at all — `fetch_jobs` and `handle_process` on the Near client end in
a panic (`unimplemented!()`), so the claim that every such call returns an
explicit "unsupported" error result rather than aborting is false. -/
theorem near_call_returns_no_error_result :
    (IndexerClient.fetch_jobs (fun _ c => fetch_evm_jobs [] 500 c)
        (fun _ c => fetch_solana_jobs [] c)
        IndexerClient.Near IndexingCursor.None).isErr = false ∧
    (IndexerClient.fetch_jobs (fun _ c => fetch_evm_jobs [] 500 c)
        (fun _ c => fetch_solana_jobs [] c)
        IndexerClient.Near IndexingCursor.None).isPanic = true ∧
    (IndexerClient.handle_process (fun _ l => process_evm_job [] 123 HapiCoreNetwork.Ethereum l)
        (fun _ _ => Outcome.ok Option.none)
        IndexerClient.Near (IndexerJob.Transaction 0)).isErr = false ∧
    (IndexerClient.handle_process (fun _ l => process_evm_job [] 123 HapiCoreNetwork.Ethereum l)
        (fun _ _ => Outcome.ok Option.none)
        IndexerClient.Near (IndexerJob.Transaction 0)).isPanic = true :=
  ⟨rfl, rfl, rfl, rfl⟩

/-- C1 (amended): for the unsupported declared network kind (Near), every
call to `fetch_jobs` and to `handle_process` hits the wildcard
`unimplemented!()` arm and fails by panicking with "not implemented",
aborting the call instead of returning a result. -/
theorem near_calls_always_panic
    (fetchEvm : HapiCoreEvm → IndexingCursor → Outcome (List IndexerJob × IndexingCursor))
    (fetchSolana : HapiCoreSolana → IndexingCursor → Outcome (List IndexerJob × IndexingCursor))
    (processEvm : HapiCoreEvm → EvmLog → Outcome (Option (List PushPayload)))
    (processSolana : HapiCoreSolana → Nat → Outcome (Option (List PushPayload)))
    (cursor : IndexingCursor) (job : IndexerJob) :
    IndexerClient.fetch_jobs fetchEvm fetchSolana IndexerClient.Near cursor
      = Outcome.panic "not implemented" ∧
    IndexerClient.handle_process processEvm processSolana IndexerClient.Near job
      = Outcome.panic "not implemented" := by
  refine ⟨rfl, ?_⟩
  cases job <;> rfl

/-- C1 (amended, witness): the amended statement at a concrete call. -/
theorem near_calls_always_panic_witness :
    IndexerClient.fetch_jobs (fun _ c => fetch_evm_jobs [] 500 c)
        (fun _ c => fetch_solana_jobs [] c) IndexerClient.Near (IndexingCursor.Block 5)
      = Outcome.panic "not implemented" :=
  (near_calls_always_panic (fun _ c => fetch_evm_jobs [] 500 c)
    (fun _ c => fetch_solana_jobs [] c)
    (fun _ l => process_evm_job [] 123 HapiCoreNetwork.Ethereum l)
    (fun _ _ => Outcome.ok Option.none)
    (IndexingCursor.Block 5) (IndexerJob.Transaction 0)).1

/-- C2: a mismatched job/client pairing — a `Transaction` job handed to an
EVM client or a `Log` job handed to a Solana client — falls to the
wildcard `unimplemented!()` arm of `handle_process`: the call fails with a
panic, an explicit failure; it never reaches a decoder and is never
accepted (`isOk` is false). -/
theorem mismatched_pairing_rejected
    (processEvm : HapiCoreEvm → EvmLog → Outcome (Option (List PushPayload)))
    (processSolana : HapiCoreSolana → Nat → Outcome (Option (List PushPayload)))
    (e : HapiCoreEvm) (s : HapiCoreSolana) (hash : Nat) (log : EvmLog) :
    IndexerClient.handle_process processEvm processSolana (IndexerClient.Evm e)
        (IndexerJob.Transaction hash) = Outcome.panic "not implemented" ∧
    IndexerClient.handle_process processEvm processSolana (IndexerClient.Solana s)
        (IndexerJob.Log log) = Outcome.panic "not implemented" ∧
    (IndexerClient.handle_process processEvm processSolana (IndexerClient.Evm e)
        (IndexerJob.Transaction hash)).isOk = false ∧
    (IndexerClient.handle_process processEvm processSolana (IndexerClient.Solana s)
        (IndexerJob.Log log)).isOk = false :=
  ⟨rfl, rfl, rfl, rfl⟩

/-- C2 (witness): the rejection at a concrete mismatched call. -/
theorem mismatched_pairing_rejected_witness :
    IndexerClient.handle_process (fun _ l => process_evm_job [] 123 HapiCoreNetwork.Ethereum l)
        (fun _ _ => Outcome.ok Option.none)
        (IndexerClient.Evm testEvmClient)
        (IndexerJob.Transaction 0) = Outcome.panic "not implemented" :=
  (mismatched_pairing_rejected (fun _ l => process_evm_job [] 123 HapiCoreNetwork.Ethereum l)
    (fun _ _ => Outcome.ok Option.none)
    testEvmClient testSolanaClient
    0 (caseLog EventName.CreateCase 0 "h")).1

/-- C3: an EVM fetch with page size 500 commits the end of the queried
range as successor cursor, whatever logs it finds: from any cursor
`Block b` the successor is `Block (b + 500)` and from `None` it is
`Block 500`; concretely, from `None` with one CreateReporter log at
block 10 the fetch returns exactly that one job and cursor `Block 500`,
and from `Block 500` with no matching logs in range it returns an empty
job list and cursor `Block 1000`. -/
theorem evm_fetch_advances_cursor_to_range_end :
    (∀ (chain : List EvmLog), evmCommitStep chain 500 IndexingCursor.None
      = Outcome.ok (IndexingCursor.Block 500)) ∧
    (∀ (chain : List EvmLog) (b : Nat), evmCommitStep chain 500 (IndexingCursor.Block b)
      = Outcome.ok (IndexingCursor.Block (b + 500))) ∧
    fetch_evm_jobs [reporterLog EventName.CreateReporter
        { id := 3, account := 100, role := 1 } 10 "0xabc"] 500 IndexingCursor.None
      = Outcome.ok ([IndexerJob.Log (reporterLog EventName.CreateReporter
          { id := 3, account := 100, role := 1 } 10 "0xabc")], IndexingCursor.Block 500) ∧
    fetch_evm_jobs [reporterLog EventName.CreateReporter
        { id := 3, account := 100, role := 1 } 10 "0xabc"] 500 (IndexingCursor.Block 500)
      = Outcome.ok ([], IndexingCursor.Block 1000) := by
  refine ⟨?_, ?_, ?_, ?_⟩
  · intro chain
    simp [evmCommitStep, fetch_evm_jobs, evmFromBlock, Outcome.map]
  · intro chain b
    simp [evmCommitStep, fetch_evm_jobs, evmFromBlock, Outcome.map]
  · rfl
  · rfl

/-- C4: for every mapped event kind a synthetic raw job built from given
field values decodes to exactly one `PushData` value of the matching
variant with those fields: reporter-family logs decode to the reporter
record, address-family logs (with their contract-state words) to the
address record, and asset-family logs to the asset record. -/
theorem evm_decode_round_trip
    (nr na ns : EventName) (rd : ReporterData) (ad : AddressData) (sd : AssetData)
    (block timestamp : Nat) (hash : String) (network : HapiCoreNetwork)
    (hnr : reporterFamily nr = true) (hna : addressFamily na = true)
    (hns : assetFamily ns = true)
    (hrid : rd.id < 2 ^ 128) (hracc : rd.account < 2 ^ 160) (hrrole : rd.role < 2 ^ 8)
    (haaddr : ad.address < 2 ^ 160) (hacase : ad.case_id < 2 ^ 128)
    (harep : ad.reporter_id < 2 ^ 128) (harisk : ad.risk < 2 ^ 8)
    (hacat : ad.category < 2 ^ 8) (haconf : ad.confirmations = 0)
    (hsaddr : sd.address < 2 ^ 160) (hsrisk : sd.risk < 2 ^ 8)
    (hscat : sd.category < 2 ^ 8) :
    process_evm_job [] timestamp network (reporterLog nr rd block hash)
      = Outcome.ok (Option.some
          [{ event_name := nr, data := PushData.Reporter rd, network := network,
             tx_hash := hash, block := block, timestamp := timestamp }]) ∧
    process_evm_job (addressStateWords ad) timestamp network (addressLog na ad block hash)
      = Outcome.ok (Option.some
          [{ event_name := na, data := PushData.Address ad, network := network,
             tx_hash := hash, block := block, timestamp := timestamp }]) ∧
    process_evm_job [] timestamp network (assetLog ns sd block hash)
      = Outcome.ok (Option.some
          [{ event_name := ns, data := PushData.Asset sd, network := network,
             tx_hash := hash, block := block, timestamp := timestamp }]) := by
  obtain ⟨aaddr, acase, arep, arisk, acat, aconf⟩ := ad
  simp only at haaddr hacase harep harisk hacat haconf
  subst haconf
  refine ⟨?_, ?_, ?_⟩
  · simp only [process_evm_job, reporterLog, eventOfTopic_sigTopic, hnr,
      u128Topic_eq_of_lt hrid, if_true]
    simp
    norm_num at hrid hracc hrrole ⊢
    exact ⟨hrid, hracc, hrrole⟩
  · simp only [process_evm_job, addressLog, addressStateWords, eventOfTopic_sigTopic,
      hna, addressFamily_not_reporter hna, u128Topic_eq_of_lt hacase,
      u128Topic_eq_of_lt harep, Bool.false_eq_true, if_false, if_true]
    simp
    norm_num at haaddr hacase harep harisk hacat ⊢
    exact ⟨haaddr, hacase, harep, harisk, hacat⟩
  · simp only [process_evm_job, assetLog, eventOfTopic_sigTopic, hns,
      assetFamily_not_reporter hns, assetFamily_not_address hns,
      Bool.false_eq_true, if_false, if_true]
    simp
    norm_num at hsaddr hsrisk hscat ⊢
    exact ⟨hsaddr, hsrisk, hscat⟩

/-- C4 (witness): the CreateAddress instance of the claim — risk 5,
category 2, case id 7, reporter id 3 — decodes to the address record with
exactly those fields. -/
theorem evm_decode_round_trip_witness :
    process_evm_job (addressStateWords sampleAddressData) 123 HapiCoreNetwork.Ethereum
        (addressLog EventName.CreateAddress sampleAddressData 10 "0xcafe")
      = Outcome.ok (Option.some
          [{ event_name := EventName.CreateAddress,
             data := PushData.Address sampleAddressData,
             network := HapiCoreNetwork.Ethereum, tx_hash := "0xcafe",
             block := 10, timestamp := 123 }]) :=
  (evm_decode_round_trip EventName.CreateReporter EventName.CreateAddress
    EventName.CreateAsset sampleReporterData sampleAddressData sampleAssetData
    10 123 "0xcafe" HapiCoreNetwork.Ethereum
    rfl rfl rfl (by norm_num [sampleReporterData]) (by norm_num [sampleReporterData])
    (by norm_num [sampleReporterData]) (by norm_num [sampleAddressData])
    (by norm_num [sampleAddressData]) (by norm_num [sampleAddressData])
    (by norm_num [sampleAddressData]) (by norm_num [sampleAddressData]) rfl
    (by norm_num [sampleAssetData]) (by norm_num [sampleAssetData])
    (by norm_num [sampleAssetData])).2.1

/-- C5: for each network the committed cursors (the successor cursors the
fetch step returns, committed one per completed iteration) are pairwise
non-decreasing under the network's own ordering, and a `None` cursor never
follows a non-`None` one — for the EVM step and the Solana step alike,
from any starting cursor and any chain contents. -/
theorem cursor_monotonicity
    (evmChain : List EvmLog) (page_size : Nat) (solChain : List Nat)
    (c0 d0 : IndexingCursor) (n m : Nat) :
    List.Pairwise cursorAdvance
      (c0 :: commitTrace (evmCommitStep evmChain page_size) c0 n) ∧
    List.Pairwise cursorAdvance
      (d0 :: commitTrace (solanaCommitStep solChain) d0 m) :=
  ⟨commitTrace_pairwise _ (evmCommitStep_advance evmChain page_size) n c0,
   commitTrace_pairwise _ (solanaCommitStep_advance solChain) m d0⟩

/-- C5 (witness): the invariant at a concrete trace. -/
theorem cursor_monotonicity_witness :
    List.Pairwise cursorAdvance
      (IndexingCursor.None :: commitTrace (evmCommitStep [] 500) IndexingCursor.None 3) :=
  (cursor_monotonicity [] 500 [3, 5] IndexingCursor.None IndexingCursor.None 3 3).1

/-- C6: a malformed (unparseable) or absent page-size override yields the
default page size 500. -/
theorem page_size_fallback_default :
    PAGE_SIZE Option.none = 500 ∧
    ∀ s : String, parse_u64 s = Option.none → PAGE_SIZE (Option.some s) = 500 := by
  refine ⟨rfl, fun s h => ?_⟩
  simp [PAGE_SIZE, h, DEFAULT_PAGE_SIZE]

/-- C6 (witness): the non-numeric override "12a" parses to nothing and the
effective page size is 500. -/
theorem page_size_fallback_default_witness :
    parse_u64 "12a" = Option.none ∧ PAGE_SIZE (Option.some "12a") = 500 :=
  ⟨by decide, page_size_fallback_default.2 "12a" (by decide)⟩

/-- C7: a job carrying a recognized but unmapped event kind — case
creation and case status update — yields no payload and no error, both at
the EVM decode adapter and through the client dispatch. -/
theorem unmapped_case_kind_yields_nothing
    (state : List Nat) (timestamp block : Nat) (network : HapiCoreNetwork)
    (hash : String) (e : HapiCoreEvm)
    (processSolana : HapiCoreSolana → Nat → Outcome (Option (List PushPayload))) :
    process_evm_job state timestamp network (caseLog EventName.CreateCase block hash)
      = Outcome.ok Option.none ∧
    process_evm_job state timestamp network (caseLog EventName.UpdateCase block hash)
      = Outcome.ok Option.none ∧
    IndexerClient.handle_process
        (fun _ l => process_evm_job state timestamp network l) processSolana
        (IndexerClient.Evm e) (IndexerJob.Log (caseLog EventName.CreateCase block hash))
      = Outcome.ok Option.none :=
  ⟨rfl, rfl, rfl⟩

/-- C7 (witness): the unmapped CreateCase kind at a concrete call. -/
theorem unmapped_case_kind_yields_nothing_witness :
    process_evm_job [] 123 HapiCoreNetwork.Ethereum
        (caseLog EventName.CreateCase 10 "0xdd") = Outcome.ok Option.none :=
  (unmapped_case_kind_yields_nothing [] 123 10 HapiCoreNetwork.Ethereum "0xdd"
    testEvmClient (fun _ _ => Outcome.ok Option.none)).1

/-- C8: the packed 256-bit topic encoding of a 128-bit record id is a
32-byte array whose first 16 bytes are zero and whose last 16 bytes are
the big-endian bytes of the value (folding them back big-endian recovers
the value). -/
theorem u128_topic_encoding (v : Nat) (h : v < 2 ^ 128) :
    (u128_to_bytes v).length = 32 ∧
    (u128_to_bytes v).take 16 = List.replicate 16 0 ∧
    (u128_to_bytes v).drop 16 = beBytes 16 v ∧
    fromBeBytes ((u128_to_bytes v).drop 16) = v := by
  have heq := u128_to_bytes_eq v
  have hlen : (beBytes 16 v).length = 16 := beBytes_length 16 v
  have hrep : (List.replicate 16 (0 : Nat)).length = 16 := List.length_replicate 16 0
  refine ⟨?_, ?_, ?_, ?_⟩
  · rw [heq]
    simp [hlen]
  · rw [heq]
    exact List.take_left' hrep
  · rw [heq]
    exact List.drop_left' hrep
  · rw [heq, List.drop_left' hrep, fromBeBytes_beBytes]
    have h256 : (256 : Nat) ^ 16 = 2 ^ 128 := by norm_num
    rw [h256]
    exact Nat.mod_eq_of_lt h

/-- C8 (witness): the encoding of the record id 7. -/
theorem u128_topic_encoding_witness :
    (7 : Nat) < 2 ^ 128 ∧
    (u128_to_bytes 7).length = 32 ∧
    (u128_to_bytes 7).take 16 = List.replicate 16 0 ∧
    fromBeBytes ((u128_to_bytes 7).drop 16) = 7 :=
  ⟨by norm_num, (u128_topic_encoding 7 (by norm_num)).1,
   (u128_topic_encoding 7 (by norm_num)).2.1,
   (u128_topic_encoding 7 (by norm_num)).2.2.2⟩

/-- C9: `IndexerClient::new` selects a concrete client variant for every
declared network kind and never produces an error of its own at
construction: Ethereum, Bsc and Sepolia construct the EVM client, Near the
Near variant, and both Solana and Bitcoin the Solana client (errors could
only propagate from the chain-client constructors, here succeeding). -/
theorem indexer_client_new_selects_variant
    (url addr : String) (ec : HapiCoreEvm) (sc : HapiCoreSolana) :
    IndexerClient.new (fun _ => Except.ok ec) (fun _ => Except.ok sc)
        HapiCoreNetwork.Ethereum url addr = Except.ok (IndexerClient.Evm ec) ∧
    IndexerClient.new (fun _ => Except.ok ec) (fun _ => Except.ok sc)
        HapiCoreNetwork.Bsc url addr = Except.ok (IndexerClient.Evm ec) ∧
    IndexerClient.new (fun _ => Except.ok ec) (fun _ => Except.ok sc)
        HapiCoreNetwork.Sepolia url addr = Except.ok (IndexerClient.Evm ec) ∧
    IndexerClient.new (fun _ => Except.ok ec) (fun _ => Except.ok sc)
        HapiCoreNetwork.Near url addr = Except.ok IndexerClient.Near ∧
    IndexerClient.new (fun _ => Except.ok ec) (fun _ => Except.ok sc)
        HapiCoreNetwork.Solana url addr = Except.ok (IndexerClient.Solana sc) ∧
    IndexerClient.new (fun _ => Except.ok ec) (fun _ => Except.ok sc)
        HapiCoreNetwork.Bitcoin url addr = Except.ok (IndexerClient.Solana sc) :=
  ⟨rfl, rfl, rfl, rfl, rfl, rfl⟩

/-- C9 (witness): the variant selection at a concrete construction. -/
theorem indexer_client_new_selects_variant_witness :
    IndexerClient.new
        (fun _ => Except.ok testEvmClient) (fun _ => Except.ok testSolanaClient)
        HapiCoreNetwork.Near "http://localhost" "0x2947" = Except.ok IndexerClient.Near :=
  (indexer_client_new_selects_variant "http://localhost" "0x2947"
    testEvmClient testSolanaClient).2.2.2.1

/-- C10: the fallback to 500 triggers exactly when the override fails to
parse as an unsigned 64-bit integer: "0" yields page size 0, "-5" falls
back to 500, every successfully parsed string passes its value through,
and every unparseable string falls back to the default. -/
theorem page_size_exact_parse_semantics :
    PAGE_SIZE (Option.some "0") = 0 ∧
    PAGE_SIZE (Option.some "-5") = 500 ∧
    (∀ (s : String) (v : Nat), parse_u64 s = Option.some v →
      PAGE_SIZE (Option.some s) = v) ∧
    (∀ s : String, parse_u64 s = Option.none →
      PAGE_SIZE (Option.some s) = DEFAULT_PAGE_SIZE) := by
  refine ⟨by decide, by decide, fun s v h => ?_, fun s h => ?_⟩
  · simp [PAGE_SIZE, h]
  · simp [PAGE_SIZE, h]

/-- C10 (witness): the override "7" parses and passes through. -/
theorem page_size_exact_parse_semantics_witness :
    parse_u64 "7" = Option.some 7 ∧ PAGE_SIZE (Option.some "7") = 7 :=
  ⟨by decide, page_size_exact_parse_semantics.2.2.1 "7" 7 (by decide)⟩

end HapiIndexer
